import Mathlib

/-!
Verification of the flick-finder repository against its specification.

The repository has two source files:

* `backend/dbTests.js` — a Node script.  `setupTestDatabase` opens a MySQL
  connection, provisions the schema of the `movie_recommendation_app`
  database (users, movies, user_movies, user_moods, deletion_logs plus an
  `after_movie_delete` trigger), clears test data and seeds three catalog
  movies.  `testAPI` drives a running REST backend through a fixed scenario
  with axios.  `runTests` composes the two.
* `src/app/app.routes.ts` — the static Angular route table.

This file gives a shallow embedding of both.  The SQL statements are
embedded as pure functions over an explicit `Schema` state, following the
documented MySQL semantics of each statement; in particular

* `DROP TABLE` also drops all triggers defined on the dropped table, and
* cascaded foreign-key actions (`ON DELETE CASCADE`) do not activate
  triggers,

both per the MySQL reference manual.  The HTTP scenario is embedded as a
function of an abstract API oracle, recording the sequence of requests
issued and the structured failure log of the catch block.
-/

/-! ## Database rows

Row types for the five tables created by `setupTestDatabase`
(`backend/dbTests.js` lines 34-86).  `created_at` columns are omitted:
they are never read by the script.  `vote_average DECIMAL(3,1)` is
represented in tenths (9.3 becomes 93). -/

structure UserRow where
  id : Nat
  username : String
  password : String
deriving Repr, DecidableEq

structure MovieRow where
  id : Nat
  tmdb_id : Nat
  title : String
  overview : String
  poster_path : String
  vote_average : Nat
deriving Repr, DecidableEq

structure UserMovieRow where
  user_id : Nat
  movie_id : Nat
deriving Repr, DecidableEq

structure UserMoodRow where
  id : Nat
  user_id : Nat
  mood : String
deriving Repr, DecidableEq

structure DeletionLogRow where
  id : Nat
  user_id : Nat
  movie_id : Nat
  deleted_at : Nat
deriving Repr, DecidableEq

/-- The visible state of the MySQL server, restricted to what the script
touches.  A table holds `none` when it does not exist and `some rows`
when it does.  `moviesAuto` and `logsAuto` are the AUTO_INCREMENT
counters of `movies` and `deletion_logs`; `after_movie_delete` records
whether the trigger of that name exists (a trigger is attached to
`user_movies` and disappears with it). -/
structure Schema where
  databases : List String
  currentDb : Option String
  users : Option (List UserRow)
  movies : Option (List MovieRow)
  moviesAuto : Nat
  user_movies : Option (List UserMovieRow)
  user_moods : Option (List UserMoodRow)
  deletion_logs : Option (List DeletionLogRow)
  logsAuto : Nat
  after_movie_delete : Bool
deriving Repr, DecidableEq

/-- Errors a statement of the script can raise, plus `injected`, an
abstract connectivity or server error injected at statement `i` to model
the error paths of the try/catch in `setupTestDatabase`. -/
inductive SqlErr where
  | tableMissing (t : String)
  | tableExists (t : String)
  | triggerExists
  | duplicateKey
  | unknownDatabase
  | injected (i : Nat)
deriving Repr, DecidableEq

/-- The database name used throughout `setupTestDatabase` (lines 27, 31). -/
def databaseName : String := "movie_recommendation_app"

/-! ## The statements of `setupTestDatabase`, in source order -/

/-- Line 27: `CREATE DATABASE IF NOT EXISTS movie_recommendation_app`. -/
def createDatabaseIfNotExists (s : Schema) : Except SqlErr Schema :=
  if databaseName ∈ s.databases then .ok s
  else .ok { s with databases := s.databases ++ [databaseName] }

/-- Line 31: `USE movie_recommendation_app`. -/
def useDatabase (s : Schema) : Except SqlErr Schema :=
  if databaseName ∈ s.databases then .ok { s with currentDb := some databaseName }
  else .error .unknownDatabase

/-- Lines 35-40: `CREATE TABLE IF NOT EXISTS users (...)`.  When the table
exists already, the statement leaves it and its rows unchanged. -/
def createTableUsers (s : Schema) : Except SqlErr Schema :=
  .ok { s with users := some (s.users.getD []) }

/-- Line 42: `DROP TABLE IF EXISTS user_movies`.  Per MySQL, dropping a
table also drops every trigger defined on it, so `after_movie_delete`
goes away with the table. -/
def dropTableUserMovies (s : Schema) : Except SqlErr Schema :=
  .ok { s with user_movies := none, after_movie_delete := false }

/-- Line 43: `DROP TABLE IF EXISTS movies`. -/
def dropTableMovies (s : Schema) : Except SqlErr Schema :=
  .ok { s with movies := none }

/-- Lines 45-53: `CREATE TABLE movies (...)` — no existence guard, fails
if the table exists; creating it resets the AUTO_INCREMENT counter. -/
def createTableMovies (s : Schema) : Except SqlErr Schema :=
  match s.movies with
  | some _ => .error (.tableExists "movies")
  | none => .ok { s with movies := some [], moviesAuto := 1 }

/-- Lines 55-62: `CREATE TABLE user_movies (...)` with the two
`ON DELETE CASCADE` foreign keys; no existence guard. -/
def createTableUserMovies (s : Schema) : Except SqlErr Schema :=
  match s.user_movies with
  | some _ => .error (.tableExists "user_movies")
  | none => .ok { s with user_movies := some [] }

/-- Lines 64-70: `CREATE TABLE IF NOT EXISTS user_moods (...)`. -/
def createTableUserMoods (s : Schema) : Except SqlErr Schema :=
  .ok { s with user_moods := some (s.user_moods.getD []) }

/-- Lines 72-77: `CREATE TABLE IF NOT EXISTS deletion_logs (...)`.  The
table has no foreign-key clauses.  Creating it afresh resets its
AUTO_INCREMENT counter; when it exists the statement changes nothing. -/
def createTableDeletionLogs (s : Schema) : Except SqlErr Schema :=
  match s.deletion_logs with
  | some _ => .ok s
  | none => .ok { s with deletion_logs := some [], logsAuto := 1 }

/-- Lines 79-85: `CREATE TRIGGER after_movie_delete AFTER DELETE ON
user_movies ...` — no existence guard: fails with `triggerExists` when a
trigger of that name exists, and requires the subject table. -/
def createTriggerAfterMovieDelete (s : Schema) : Except SqlErr Schema :=
  if s.after_movie_delete then .error .triggerExists
  else
    match s.user_movies with
    | none => .error (.tableMissing "user_movies")
    | some _ => .ok { s with after_movie_delete := true }

/-- Direct `DELETE FROM user_movies WHERE p`.  Each row removed by a
direct DELETE activates the `after_movie_delete` trigger (when it
exists), which inserts one `deletion_logs` row carrying the
`(user_id, movie_id)` keys of the deleted row and the current time
(`NOW()`). -/
def deleteUserMoviesWhere (p : UserMovieRow → Bool) (now : Nat) (s : Schema) :
    Except SqlErr Schema :=
  match s.user_movies with
  | none => .error (.tableMissing "user_movies")
  | some rows =>
    let deleted := rows.filter p
    let kept := rows.filter (fun r => !(p r))
    if s.after_movie_delete then
      match s.deletion_logs with
      | none => .error (.tableMissing "deletion_logs")
      | some logs =>
        .ok { s with
              user_movies := some kept,
              deletion_logs := some (logs ++ deleted.enum.map (fun ir =>
                ⟨s.logsAuto + ir.1, ir.2.user_id, ir.2.movie_id, now⟩)),
              logsAuto := s.logsAuto + deleted.length }
    else .ok { s with user_movies := some kept }

/-- Semantics of `DELETE FROM users WHERE p`.  The `ON DELETE CASCADE` foreign keys of
`user_movies` and `user_moods` remove the dependent rows of the deleted
users.  Per MySQL, cascaded foreign-key actions do not activate
triggers, so no `deletion_logs` rows are written for the cascaded
`user_movies` deletions. -/
def deleteUsersWhere (p : UserRow → Bool) (s : Schema) : Except SqlErr Schema :=
  match s.users with
  | none => .error (.tableMissing "users")
  | some us =>
    let deletedIds := (us.filter p).map (fun u => u.id)
    .ok { s with
          users := some (us.filter (fun u => !(p u))),
          user_movies := s.user_movies.map
            (fun l => l.filter (fun r => !(deletedIds.contains r.user_id))),
          user_moods := s.user_moods.map
            (fun l => l.filter (fun r => !(deletedIds.contains r.user_id))) }

/-- Semantics of `DELETE FROM movies WHERE p`.  The `ON DELETE CASCADE` foreign key of
`user_movies` removes the dependent rows; again, the cascade does not
activate the trigger. -/
def deleteMoviesWhere (p : MovieRow → Bool) (s : Schema) : Except SqlErr Schema :=
  match s.movies with
  | none => .error (.tableMissing "movies")
  | some ms =>
    let deletedIds := (ms.filter p).map (fun m => m.id)
    .ok { s with
          movies := some (ms.filter (fun m => !(p m))),
          user_movies := s.user_movies.map
            (fun l => l.filter (fun r => !(deletedIds.contains r.movie_id))) }

/-- Line 91: `DELETE FROM user_movies` (all rows; a direct DELETE, so the
trigger fires for every removed row). -/
def deleteAllUserMovies (now : Nat) : Schema → Except SqlErr Schema :=
  deleteUserMoviesWhere (fun _ => true) now

/-- Line 92: `DELETE FROM user_moods`. -/
def deleteAllUserMoods (s : Schema) : Except SqlErr Schema :=
  match s.user_moods with
  | none => .error (.tableMissing "user_moods")
  | some _ => .ok { s with user_moods := some [] }

/-- The LIKE pattern of line 93: `username LIKE testuser%` (quotes omitted) matches the
usernames that start with `testuser` (prefix match on the character
sequence). -/
def matchesTestuserPattern (u : UserRow) : Bool :=
  "testuser".data.isPrefixOf u.username.data

/-- Line 93: the DELETE on `users` filtering by the testuser LIKE pattern. -/
def deleteTestUsers : Schema → Except SqlErr Schema :=
  deleteUsersWhere matchesTestuserPattern

/-- Line 94: `DELETE FROM movies`. -/
def deleteAllMovies : Schema → Except SqlErr Schema :=
  deleteMoviesWhere (fun _ => true)

/-- The three seeded catalog rows of lines 100-103, starting at the
current AUTO_INCREMENT value `auto` (a plain DELETE does not reset it). -/
def seededMovies (auto : Nat) : List MovieRow :=
  [⟨auto, 278, "The Shawshank Redemption",
    "Two imprisoned men bond over a number of years.", "/path/to/poster1.jpg", 93⟩,
   ⟨auto + 1, 238, "The Godfather",
    "The aging patriarch of an organized crime dynasty.", "/path/to/poster2.jpg", 92⟩,
   ⟨auto + 2, 155, "The Dark Knight",
    "Batman raises the stakes in his war on crime.", "/path/to/poster3.jpg", 90⟩]

/-- Lines 100-104: the three-row INSERT into `movies`.  `tmdb_id` is
UNIQUE, so the statement fails when one of 278, 238, 155 is present. -/
def insertTestMovies (s : Schema) : Except SqlErr Schema :=
  match s.movies with
  | none => .error (.tableMissing "movies")
  | some rows =>
    if rows.any (fun m => m.tmdb_id == 278 || m.tmdb_id == 238 || m.tmdb_id == 155) then
      .error .duplicateKey
    else
      .ok { s with movies := some (rows ++ seededMovies s.moviesAuto),
                   moviesAuto := s.moviesAuto + 3 }

/-- Line 107: `SELECT * FROM movies` — read only. -/
def selectAllMovies (s : Schema) : Except SqlErr Schema :=
  match s.movies with
  | none => .error (.tableMissing "movies")
  | some _ => .ok s

/-! ## Sequencing the statements -/

/-- Runs statement number `i` on the state threaded so far.  Once an
earlier statement has failed the remaining ones are skipped (mysql2
rejects the query promise on the first failing statement; the effects of
the earlier statements of the batch persist, there is no rollback).
`failAt = some i` injects an abstract connectivity error at statement
`i`, modelling the try/catch error paths. -/
def execStmt (failAt : Option Nat) (i : Nat) (q : Schema → Except SqlErr Schema)
    (r : Schema × Option SqlErr) : Schema × Option SqlErr :=
  match r with
  | (s, some e) => (s, some e)
  | (s, none) =>
    if failAt = some i then (s, some (.injected i))
    else
      match q s with
      | .ok t => (t, none)
      | .error e => (s, some e)

/-- The DDL statements of `setupTestDatabase` (lines 26-86): database and
`users` creation, drop-and-recreate of `movies` and `user_movies`,
guarded creation of `user_moods` and `deletion_logs`, and the trigger. -/
def ddlPhase (failAt : Option Nat) (r : Schema × Option SqlErr) : Schema × Option SqlErr :=
  r |> execStmt failAt 0 createDatabaseIfNotExists
    |> execStmt failAt 1 useDatabase
    |> execStmt failAt 2 createTableUsers
    |> execStmt failAt 3 dropTableUserMovies
    |> execStmt failAt 4 dropTableMovies
    |> execStmt failAt 5 createTableMovies
    |> execStmt failAt 6 createTableUserMovies
    |> execStmt failAt 7 createTableUserMoods
    |> execStmt failAt 8 createTableDeletionLogs
    |> execStmt failAt 9 createTriggerAfterMovieDelete

/-- The seed/reset statements (lines 90-104): clear `user_movies`,
`user_moods`, the `testuser%` users and `movies`, then insert the three
catalog movies. -/
def seedPhase (failAt : Option Nat) (now : Nat) (r : Schema × Option SqlErr) :
    Schema × Option SqlErr :=
  r |> execStmt failAt 10 (deleteAllUserMovies now)
    |> execStmt failAt 11 deleteAllUserMoods
    |> execStmt failAt 12 deleteTestUsers
    |> execStmt failAt 13 deleteAllMovies
    |> execStmt failAt 14 insertTestMovies

/-- All statements issued by `setupTestDatabase`, in source order. -/
def runSetupStatements (failAt : Option Nat) (now : Nat) (s : Schema) :
    Schema × Option SqlErr :=
  (s, none) |> ddlPhase failAt |> seedPhase failAt now |> execStmt failAt 15 selectAllMovies

/-- Outcome of one `setupTestDatabase` call: the returned boolean, the
database state left behind, and whether the connection was opened and
closed. -/
structure RunResult where
  success : Bool
  db : Schema
  connOpened : Bool
  connEnded : Bool
deriving Repr, DecidableEq

/-- The `finally` clause of lines 120-124: `if (connection) await
connection.end()`. -/
def finallyEnd (r : RunResult) : RunResult :=
  if r.connOpened then { r with connEnded := true } else r

/-- The function `setupTestDatabase` (lines 8-125).  `connOk = false` models
`mysql.createConnection` throwing (the catch then returns `false` with
no connection opened); otherwise the statements run in order, any error
is caught and turns the result into `false`, and the `finally` clause
closes the connection on every exit path on which it was opened. -/
def setupTestDatabase (connOk : Bool) (failAt : Option Nat) (now : Nat) (s : Schema) :
    RunResult :=
  finallyEnd
    (if connOk then
      let r := runSetupStatements failAt now s
      { success := r.2.isNone, db := r.1, connOpened := true, connEnded := false }
    else
      { success := false, db := s, connOpened := false, connEnded := false })

/-- A fresh server with no databases, tables or triggers. -/
def emptySchema : Schema :=
  { databases := [], currentDb := none, users := none, movies := none,
    moviesAuto := 1, user_movies := none, user_moods := none,
    deletion_logs := none, logsAuto := 1, after_movie_delete := false }

/-! ## The HTTP scenario of `testAPI` (lines 128-232)

`testAPI` is embedded as a function of an abstract API oracle (one field
per endpoint the script calls).  The run records the ordered list of
requests issued; on the first rejected request the remaining steps are
skipped and the failure of the catch block is recorded, mirroring the
single try/catch around the whole scenario. -/

/-- JavaScript `a || b` on an optional string: `undefined` and the empty
string are falsy. -/
def jsOrStr (a : Option String) (b : String) : String :=
  match a with
  | none => b
  | some s => if s = "" then b else s

inductive Method where
  | get
  | post
  | put
  | delete
deriving Repr, DecidableEq

/-- A movie object as returned by the backend (`GET /movies`,
`GET /user/:id/movies`).  Fields the script reads; `overview`,
`poster_path` and `vote_average` may be absent (the script applies
`|| fallback` to them). -/
structure ApiMovie where
  id : Nat
  tmdb_id : Nat
  title : String
  overview : Option String
  poster_path : Option String
  vote_average : Option Nat
deriving Repr, DecidableEq

/-- The requests `testAPI` can issue, with the data each carries. -/
inductive ApiRequest where
  | createUser (username password : String)
  | login (username password : String)
  | getUsers
  | getMovies
  | addMovie (userId : Nat) (movieId : Nat)
      (title overview poster_path : String) (vote_average : Nat)
  | getUserMovies (userId : Nat)
  | deleteUserMovie (userId movieId : Nat)
  | updatePassword (userId : Nat) (newPassword : String)
deriving Repr, DecidableEq

/-- The base URL of line 5. -/
def API_URL : String := "http://localhost:3000"

/-- The URL each request is sent to (`error.config.url` of the catch). -/
def requestUrl : ApiRequest → String
  | .createUser _ _ => API_URL ++ "/users"
  | .login _ _ => API_URL ++ "/login"
  | .getUsers => API_URL ++ "/users"
  | .getMovies => API_URL ++ "/movies"
  | .addMovie u _ _ _ _ _ => API_URL ++ "/user/" ++ toString u ++ "/movies"
  | .getUserMovies u => API_URL ++ "/user/" ++ toString u ++ "/movies"
  | .deleteUserMovie u m => API_URL ++ "/user/" ++ toString u ++ "/movies/" ++ toString m
  | .updatePassword u _ => API_URL ++ "/user/" ++ toString u ++ "/password"

/-- The HTTP method of each request (`error.config.method`). -/
def requestMethod : ApiRequest → Method
  | .createUser _ _ => .post
  | .login _ _ => .post
  | .getUsers => .get
  | .getMovies => .get
  | .addMovie _ _ _ _ _ _ => .post
  | .getUserMovies _ => .get
  | .deleteUserMovie _ _ => .delete
  | .updatePassword _ _ => .put

/-- The request bodies the script sends. -/
inductive RequestBody where
  | userCred (username password : String)
  | movieAdd (movieId : Nat) (title overview poster_path : String) (vote_average : Nat)
  | passwordChange (newPassword : String)
deriving Repr, DecidableEq

/-- The body attached to each request (`error.config.data`); GET and
DELETE requests carry none. -/
def requestBody : ApiRequest → Option RequestBody
  | .createUser u p => some (.userCred u p)
  | .login u p => some (.userCred u p)
  | .getUsers => none
  | .getMovies => none
  | .addMovie _ m t o pp v => some (.movieAdd m t o pp v)
  | .getUserMovies _ => none
  | .deleteUserMovie _ _ => none
  | .updatePassword _ p => some (.passwordChange p)

/-- An axios rejection: `message` is the generic error message,
`responseStatus` is `error.response?.status` and `responseDataMessage`
is `error.response?.data?.message` (absent without a server response). -/
structure ApiError where
  message : String
  responseStatus : Option Nat
  responseDataMessage : Option String
deriving Repr, DecidableEq

/-- What made a `testAPI` run fail: a rejected API request, or a plain
JavaScript error thrown between requests (for example reading a property
of `undefined` when `GET /movies` returns an empty array). -/
inductive TestFailure where
  | apiStep (r : ApiRequest) (e : ApiError)
  | clientError (message : String)
deriving Repr, DecidableEq

/-- The structured log printed by the catch block (lines 224-230):
message, HTTP status, endpoint URL, HTTP method and request body.  For a
plain JavaScript error `error.response` and `error.config` are
undefined, so every field except the message is empty. -/
structure FailureLog where
  message : String
  status : Option Nat
  endpoint : Option String
  method : Option Method
  data : Option RequestBody
deriving Repr, DecidableEq

/-- Builds the object logged by the console.error call of lines 224-230. -/
def failureLog : TestFailure → FailureLog
  | .apiStep r e =>
    { message := jsOrStr e.responseDataMessage e.message,
      status := e.responseStatus,
      endpoint := some (requestUrl r),
      method := some (requestMethod r),
      data := requestBody r }
  | .clientError m =>
    { message := m, status := none, endpoint := none, method := none, data := none }

/-- The backend the script talks to, as an abstract oracle: one field
per endpoint, each returning the payload the script reads or an error. -/
structure ApiOracle where
  createUser : String → String → Except ApiError Nat
  login : String → String → Except ApiError Unit
  getUsers : Except ApiError Unit
  getMovies : Except ApiError (List ApiMovie)
  addMovie : Nat → Nat → String → String → String → Nat → Except ApiError Unit
  getUserMovies : Nat → Except ApiError (List ApiMovie)
  deleteUserMovie : Nat → Nat → Except ApiError Unit
  updatePassword : Nat → String → Except ApiError Unit

/-- Outcome of a `testAPI` run: the requests issued in order, the
failure caught (if any), and the verdict of the delete check of lines
198-203 (`none` when the run aborted before reaching it). -/
structure TestAPIResult where
  trace : List ApiRequest
  failure : Option TestFailure
  deleteCheckPassed : Option Bool
deriving Repr, DecidableEq

/-- One awaited axios call: the request is appended to the trace; a
rejection aborts the whole run with the catch-block failure (keeping the
delete-check verdict computed so far), otherwise the continuation runs
on the response payload. -/
def stepRun {α : Type} (chk : Option Bool) (acc : List ApiRequest) (r : ApiRequest)
    (x : Except ApiError α) (k : List ApiRequest → α → TestAPIResult) : TestAPIResult :=
  match x with
  | .error e => { trace := acc ++ [r], failure := some (.apiStep r e), deleteCheckPassed := chk }
  | .ok a => k (acc ++ [r]) a

/-- The function `testAPI` (lines 128-232).  `now` is `Date.now()`; the scenario in
source order: create user `testuser_<now>` / `password123`, login, GET
`/users`, GET `/movies`, POST the first returned movie (its `tmdb_id`
and details) to the user, GET the movies of the user, DELETE movie id 1 from
the user, GET the user movies again and check id 1 is absent, PUT the
new password `newpassword456`, login with the new password.  There is no
login attempt with the old password after the update. -/
def testAPI (o : ApiOracle) (now : Nat) : TestAPIResult :=
  stepRun none [] (.createUser ("testuser_" ++ toString now) "password123")
      (o.createUser ("testuser_" ++ toString now) "password123") (fun acc userId =>
  stepRun none acc (.login ("testuser_" ++ toString now) "password123")
      (o.login ("testuser_" ++ toString now) "password123") (fun acc _ =>
  stepRun none acc .getUsers o.getUsers (fun acc _ =>
  stepRun none acc .getMovies o.getMovies (fun acc movies =>
  match movies with
  | [] =>
    -- `moviesResponse.data[0]` is undefined: reading `.tmdb_id` throws a
    -- TypeError before any further request is issued.
    { trace := acc,
      failure := some (.clientError "Cannot read properties of undefined"),
      deleteCheckPassed := none }
  | m :: _ =>
    stepRun none acc
        (.addMovie userId m.tmdb_id m.title (jsOrStr m.overview "")
          (jsOrStr m.poster_path "") (m.vote_average.getD 0))
        (o.addMovie userId m.tmdb_id m.title (jsOrStr m.overview "")
          (jsOrStr m.poster_path "") (m.vote_average.getD 0)) (fun acc _ =>
    stepRun none acc (.getUserMovies userId) (o.getUserMovies userId) (fun acc _ =>
    stepRun none acc (.deleteUserMovie userId 1) (o.deleteUserMovie userId 1) (fun acc _ =>
    stepRun none acc (.getUserMovies userId) (o.getUserMovies userId) (fun acc updated =>
    -- lines 198-203: movieStillExists = updatedMovies.some(m => m.id === 1);
    -- logged either way, the run continues.
    stepRun (some (!(updated.any (fun mv => mv.id == 1)))) acc
        (.updatePassword userId "newpassword456")
        (o.updatePassword userId "newpassword456") (fun acc _ =>
    stepRun (some (!(updated.any (fun mv => mv.id == 1)))) acc
        (.login ("testuser_" ++ toString now) "newpassword456")
        (o.login ("testuser_" ++ toString now) "newpassword456") (fun acc _ =>
    { trace := acc, failure := none,
      deleteCheckPassed := some (!(updated.any (fun mv => mv.id == 1))) }))))))))))

/-- The end-to-end scenario as the specification words it (section 8 of
the spec): create user, login, list movies, add the first returned
movie, list the user movies, delete movie id 1, list again, update the
password, login with the new password, login with the old password.
Modelled from the spec, for comparison with `testAPI`. -/
def specScenarioRequests (now userId : Nat) (firstMovie : ApiMovie) : List ApiRequest :=
  let username := "testuser_" ++ toString now
  [.createUser username "password123",
   .login username "password123",
   .getMovies,
   .addMovie userId firstMovie.tmdb_id firstMovie.title (jsOrStr firstMovie.overview "")
     (jsOrStr firstMovie.poster_path "") (firstMovie.vote_average.getD 0),
   .getUserMovies userId,
   .deleteUserMovie userId 1,
   .getUserMovies userId,
   .updatePassword userId "newpassword456",
   .login username "newpassword456",
   .login username "password123"]

/-- Outcome of `runTests` (lines 235-245): the setup result and, only
when setup succeeded, the `testAPI` run. -/
structure RunTestsResult where
  setup : RunResult
  api : Option TestAPIResult
deriving Repr, DecidableEq

/-- The function `runTests`: provision the database; run the API tests only when
`setupTestDatabase` returned `true`, otherwise skip them. -/
def runTests (connOk : Bool) (failAt : Option Nat) (now : Nat) (s : Schema)
    (o : ApiOracle) : RunTestsResult :=
  let r := setupTestDatabase connOk failAt now s
  { setup := r, api := if r.success then some (testAPI o now) else none }

/-! ## The frontend route table (`src/app/app.routes.ts`) -/

inductive Component where
  | LoginComponent
  | SignupComponent
  | MoviesComponent
deriving Repr, DecidableEq

/-- A route entry either renders a component or redirects (with its
`pathMatch` mode). -/
inductive RouteTarget where
  | component (c : Component)
  | redirectTo (path : String) (pathMatch : String)
deriving Repr, DecidableEq

structure Route where
  path : String
  target : RouteTarget
deriving Repr, DecidableEq

/-- The `routes` array of `app.routes.ts` lines 6-11. -/
def routes : List Route :=
  [⟨"", .redirectTo "login" "full"⟩,
   ⟨"login", .component .LoginComponent⟩,
   ⟨"signup", .component .SignupComponent⟩,
   ⟨"movies", .component .MoviesComponent⟩]

/-- First-match lookup of a path in a route table — the meaning of the
table as a mapping. -/
def findRoute (p : String) (l : List Route) : Option Route :=
  l.find? (fun r => r.path == p)

/-! ## Environment configuration (lines 15-20) -/

/-- The environment variables the script reads. -/
structure Env where
  DB_HOST : Option String
  DB_USER : Option String
  DB_PASSWORD : Option String
deriving Repr, DecidableEq

/-- The object passed to `mysql.createConnection` on lines 15-20. -/
structure ConnectionConfig where
  host : String
  user : String
  password : Option String
  multipleStatements : Bool
deriving Repr, DecidableEq

/-- Lines 16-19: host defaults to localhost and user to root via the
JavaScript or-operator on the environment variables; the password is
DB_PASSWORD verbatim; multipleStatements is set. -/
def connectionConfig (env : Env) : ConnectionConfig :=
  { host := jsOrStr env.DB_HOST "localhost",
    user := jsOrStr env.DB_USER "root",
    password := env.DB_PASSWORD,
    multipleStatements := true }

/-! ## Concrete fixtures used by counterexamples and witnesses -/

/-- A provisioned schema holding one user, one movie and the association
between them, with the trigger in place — the state the audit-rule claim
is about. -/
def sAssoc : Schema :=
  { databases := [databaseName], currentDb := some databaseName,
    users := some [⟨1, "testuser_a", "pw"⟩],
    movies := some [⟨1, 278, "The Shawshank Redemption", "o", "p", 93⟩],
    moviesAuto := 2,
    user_movies := some [⟨1, 1⟩], user_moods := some [],
    deletion_logs := some [], logsAuto := 1, after_movie_delete := true }

/-- A schema left behind by an earlier run, holding a test user with id 1,
a movie with id 5 and their association: used to show that a
`deletion_logs` row can outlive both of its referents. -/
def sDangling : Schema :=
  { databases := [databaseName], currentDb := some databaseName,
    users := some [⟨1, "testuser_old", "pw"⟩],
    movies := some [⟨5, 999, "Old", "o", "p", 50⟩], moviesAuto := 6,
    user_movies := some [⟨1, 5⟩], user_moods := some [],
    deletion_logs := some [], logsAuto := 1, after_movie_delete := true }

/-- The three seeded movies as the backend would return them. -/
def seededApiMovies : List ApiMovie :=
  [⟨1, 278, "The Shawshank Redemption",
    some "Two imprisoned men bond over a number of years.", some "/path/to/poster1.jpg", some 93⟩,
   ⟨2, 238, "The Godfather", none, none, some 92⟩,
   ⟨3, 155, "The Dark Knight", none, none, some 90⟩]

/-- A backend on which every request of the scenario succeeds. -/
def allOkOracle : ApiOracle :=
  { createUser := fun _ _ => .ok 7,
    login := fun _ _ => .ok (),
    getUsers := .ok (),
    getMovies := .ok seededApiMovies,
    addMovie := fun _ _ _ _ _ _ => .ok (),
    getUserMovies := fun _ => .ok [⟨2, 238, "The Godfather", none, none, none⟩],
    deleteUserMovie := fun _ _ => .ok (),
    updatePassword := fun _ _ => .ok () }

/-- A backend that rejects the movie-list request with a 500. -/
def failingOracle : ApiOracle :=
  { allOkOracle with
    getMovies := .error ⟨"Request failed with status code 500", some 500,
      some "internal error"⟩ }

/-- State `t` extends the `deletion_logs` of `s`: whenever the table exists in
`s`, it exists in `t` with the same rows possibly followed by new ones.
No operation of the script removes or rewrites an existing log row. -/
def LogsExtend (s t : Schema) : Prop :=
  ∀ l, s.deletion_logs = some l → ∃ l2, t.deletion_logs = some (l ++ l2)

/-- The schema produced by the DDL phase, as a function of the input
schema. -/
def ddlFinalSchema (s : Schema) : Schema :=
  { databases := if databaseName ∈ s.databases then s.databases
                 else s.databases ++ [databaseName],
    currentDb := some databaseName,
    users := some (s.users.getD []),
    movies := some [],
    moviesAuto := 1,
    user_movies := some [],
    user_moods := some (s.user_moods.getD []),
    deletion_logs := some (s.deletion_logs.getD []),
    logsAuto := if s.deletion_logs.isNone then 1 else s.logsAuto,
    after_movie_delete := true }

/-- The schema left behind by a full, uninterrupted `setupTestDatabase`
run. -/
def setupFinalSchema (s : Schema) : Schema :=
  { databases := if databaseName ∈ s.databases then s.databases
                 else s.databases ++ [databaseName],
    currentDb := some databaseName,
    users := some ((s.users.getD []).filter (fun u => !(matchesTestuserPattern u))),
    movies := some (seededMovies 1),
    moviesAuto := 4,
    user_movies := some [],
    user_moods := some [],
    deletion_logs := some (s.deletion_logs.getD []),
    logsAuto := if s.deletion_logs.isNone then 1 else s.logsAuto,
    after_movie_delete := true }

/-! ## Evaluation lemmas for the provisioning pipeline -/

theorem ddlPhase_none_eq (s : Schema) :
    ddlPhase none (s, none) = (ddlFinalSchema s, none) := by
  by_cases hdb : databaseName ∈ s.databases <;>
    cases hlog : s.deletion_logs <;>
      simp [ddlPhase, execStmt, createDatabaseIfNotExists, useDatabase, createTableUsers,
            dropTableUserMovies, dropTableMovies, createTableMovies, createTableUserMovies,
            createTableUserMoods, createTableDeletionLogs, createTriggerAfterMovieDelete,
            ddlFinalSchema, hdb, hlog]

theorem runSetup_none_eq (now : Nat) (s : Schema) :
    runSetupStatements none now s = (setupFinalSchema s, none) := by
  rw [runSetupStatements, ddlPhase_none_eq]
  by_cases hdb : databaseName ∈ s.databases <;>
    cases hlog : s.deletion_logs <;>
      simp [seedPhase, execStmt, deleteAllUserMovies, deleteUserMoviesWhere,
            deleteAllUserMoods, deleteTestUsers, deleteUsersWhere, deleteAllMovies,
            deleteMoviesWhere, insertTestMovies, selectAllMovies, ddlFinalSchema,
            setupFinalSchema, hdb, hlog]

theorem setup_true_none_eq (now : Nat) (s : Schema) :
    setupTestDatabase true none now s =
      { success := true, db := setupFinalSchema s, connOpened := true, connEnded := true } := by
  simp [setupTestDatabase, finallyEnd, runSetup_none_eq]

/-! ## Claim theorems -/

/-- C1.  The claimed invariant — every deletion of a `user_movies` row,
direct or cascaded, inserts exactly one `deletion_logs` row with the
pre-deletion keys — fails on the provisioned schema.  On `sAssoc` (one
user, one movie, their association, trigger present): a direct DELETE on
`user_movies` does insert exactly one log row carrying the pre-deletion
`(user_id, movie_id) = (1, 1)`; but deleting the users row removes the
association by `ON DELETE CASCADE` with `deletion_logs` left unchanged,
and likewise deleting the movies row — MySQL cascaded foreign-key
actions do not activate triggers. -/
theorem c1_cascade_trigger_gap :
    deleteUserMoviesWhere (fun _ => true) 50 sAssoc =
      .ok { sAssoc with
        user_movies := some [],
        deletion_logs := some [⟨1, 1, 1, 50⟩],
        logsAuto := 2 } ∧
    deleteUsersWhere matchesTestuserPattern sAssoc =
      .ok { sAssoc with
        users := some [],
        user_movies := some [],
        user_moods := some [] } ∧
    deleteMoviesWhere (fun _ => true) sAssoc =
      .ok { sAssoc with movies := some [], user_movies := some [] } :=
  ⟨rfl, rfl, rfl⟩

/-- C3.  On every provisioning run the DDL phase succeeds and: the
database is recorded only if absent, the `users` table is created only
if absent with existing rows untouched (`some (s.users.getD [])` keeps
an existing table as is), `movies` and `user_movies` are recreated empty
whatever they held, and `user_moods` and `deletion_logs` are created
only if absent, existing rows untouched. -/
theorem c3_provisioning (s : Schema) :
    ddlPhase none (s, none) = (ddlFinalSchema s, none) ∧
    (ddlFinalSchema s).users = some (s.users.getD []) ∧
    (ddlFinalSchema s).movies = some [] ∧
    (ddlFinalSchema s).user_movies = some [] ∧
    (ddlFinalSchema s).user_moods = some (s.user_moods.getD []) ∧
    (ddlFinalSchema s).deletion_logs = some (s.deletion_logs.getD []) ∧
    databaseName ∈ (ddlFinalSchema s).databases ∧
    (databaseName ∈ s.databases → (ddlFinalSchema s).databases = s.databases) := by
  refine ⟨ddlPhase_none_eq s, rfl, rfl, rfl, rfl, rfl, ?_, ?_⟩
  · by_cases hdb : databaseName ∈ s.databases <;> simp [ddlFinalSchema, hdb]
  · intro hdb; simp [ddlFinalSchema, hdb]

/-- C4 counterexample.  After a first `setupTestDatabase` run on a fresh
server the trigger `after_movie_delete` exists, yet a second run returns
`true`, not `false` as the claim states: the `DROP TABLE IF EXISTS
user_movies` of the second run drops the trigger together with its
table, so the unguarded `CREATE TRIGGER` succeeds. -/
theorem c4_counterexample :
    ((setupTestDatabase true none 1 emptySchema).db).after_movie_delete = true ∧
    (setupTestDatabase true none 2 ((setupTestDatabase true none 1 emptySchema).db)).success
      = true :=
  ⟨rfl, rfl⟩

/-- C4 amended.  A first run always leaves the trigger in place, and a
rerun against any such state (indeed against any state) succeeds:
provisioning is idempotent because dropping `user_movies` also drops the
trigger defined on it. -/
theorem c4_rerun_succeeds (now1 now2 : Nat) (s : Schema) :
    ((setupTestDatabase true none now1 s).db).after_movie_delete = true ∧
    (setupTestDatabase true none now2 ((setupTestDatabase true none now1 s).db)).success
      = true := by
  simp [setup_true_none_eq, setupFinalSchema]

/-- C5.  The seed/reset statements, run on any schema in which the five
tables exist, succeed and leave: `user_movies` and `user_moods` empty,
`users` with exactly the rows whose username does not match the
`testuser%` pattern, and `movies` holding exactly the three catalog
rows titled The Shawshank Redemption / The Godfather / The Dark Knight
with tmdb_ids 278 / 238 / 155. -/
theorem c5_seed_reset (now : Nat) (s : Schema)
    (us : List UserRow) (um : List UserMovieRow) (ud : List UserMoodRow)
    (mv : List MovieRow) (dl : List DeletionLogRow)
    (hus : s.users = some us) (hum : s.user_movies = some um)
    (hud : s.user_moods = some ud) (hmv : s.movies = some mv)
    (hdl : s.deletion_logs = some dl) :
    (seedPhase none now (s, none)).2 = none ∧
    (seedPhase none now (s, none)).1.user_movies = some [] ∧
    (seedPhase none now (s, none)).1.user_moods = some [] ∧
    (seedPhase none now (s, none)).1.users =
      some (us.filter (fun u => !(matchesTestuserPattern u))) ∧
    (seedPhase none now (s, none)).1.movies = some (seededMovies s.moviesAuto) ∧
    (seededMovies s.moviesAuto).map (fun m => (m.title, m.tmdb_id)) =
      [("The Shawshank Redemption", 278), ("The Godfather", 238),
       ("The Dark Knight", 155)] := by
  cases htr : s.after_movie_delete <;>
    simp [seedPhase, execStmt, deleteAllUserMovies, deleteUserMoviesWhere,
          deleteAllUserMoods, deleteTestUsers, deleteUsersWhere, deleteAllMovies,
          deleteMoviesWhere, insertTestMovies, seededMovies,
          hus, hum, hud, hmv, hdl, htr]

/-- C5 witness: the seed statements on the concrete schema `sAssoc`. -/
theorem c5_seed_reset_witness :
    (seedPhase none 9 (sAssoc, none)).2 = none ∧
    (seedPhase none 9 (sAssoc, none)).1.user_movies = some [] ∧
    (seedPhase none 9 (sAssoc, none)).1.user_moods = some [] ∧
    (seedPhase none 9 (sAssoc, none)).1.users =
      some ([⟨1, "testuser_a", "pw"⟩].filter (fun u => !(matchesTestuserPattern u))) ∧
    (seedPhase none 9 (sAssoc, none)).1.movies = some (seededMovies sAssoc.moviesAuto) ∧
    (seededMovies sAssoc.moviesAuto).map (fun m => (m.title, m.tmdb_id)) =
      [("The Shawshank Redemption", 278), ("The Godfather", 238),
       ("The Dark Knight", 155)] :=
  c5_seed_reset 9 sAssoc [⟨1, "testuser_a", "pw"⟩] [⟨1, 1⟩] []
    [⟨1, 278, "The Shawshank Redemption", "o", "p", 93⟩] []
    rfl rfl rfl rfl rfl

/-- C7.  On every execution of `setupTestDatabase` — success, statement
failure at any point, or connection failure — the connection is closed
exactly when it was opened (the `finally` clause), and it is opened
exactly when `createConnection` succeeded: no connection outlives the
run. -/
theorem c7_connection_cleanup (connOk : Bool) (failAt : Option Nat) (now : Nat)
    (s : Schema) :
    (setupTestDatabase connOk failAt now s).connEnded =
      (setupTestDatabase connOk failAt now s).connOpened ∧
    (setupTestDatabase connOk failAt now s).connOpened = connOk := by
  cases connOk <;> simp [setupTestDatabase, finallyEnd]

/-- C8.  With `DB_HOST` and `DB_USER` unset the connection uses host
`localhost` and user `root`; the password is taken from `DB_PASSWORD`
verbatim; and an uninterrupted run leaves the session switched (`USE`)
to the database `movie_recommendation_app`. -/
theorem c8_env_config (env : Env) (now : Nat) (s : Schema)
    (hh : env.DB_HOST = none) (hu : env.DB_USER = none) :
    (connectionConfig env).host = "localhost" ∧
    (connectionConfig env).user = "root" ∧
    (connectionConfig env).password = env.DB_PASSWORD ∧
    (connectionConfig env).multipleStatements = true ∧
    ((setupTestDatabase true none now s).db).currentDb =
      some "movie_recommendation_app" := by
  refine ⟨?_, ?_, rfl, rfl, ?_⟩
  · simp [connectionConfig, jsOrStr, hh]
  · simp [connectionConfig, jsOrStr, hu]
  · simp [setup_true_none_eq, setupFinalSchema, databaseName]

/-- C8 witness: a concrete environment with both variables unset. -/
theorem c8_env_config_witness :
    (connectionConfig ⟨none, none, some "secret"⟩).host = "localhost" ∧
    (connectionConfig ⟨none, none, some "secret"⟩).user = "root" ∧
    (connectionConfig ⟨none, none, some "secret"⟩).password =
      (⟨none, none, some "secret"⟩ : Env).DB_PASSWORD ∧
    (connectionConfig ⟨none, none, some "secret"⟩).multipleStatements = true ∧
    ((setupTestDatabase true none 3 emptySchema).db).currentDb =
      some "movie_recommendation_app" :=
  c8_env_config ⟨none, none, some "secret"⟩ 3 emptySchema rfl rfl

/-- C9.  The route table has exactly the four entries of
`app.routes.ts`: the empty path redirects to `login` with `pathMatch
full` and the other three paths map to their page components; no path
appears twice (the path-to-target mapping is a function), and therefore
the first-match lookup gives the same result on any reordering of the
table. -/
theorem c9_route_table (l : List Route) (hl : routes.Perm l) :
    routes.length = 4 ∧
    routes = [⟨"", .redirectTo "login" "full"⟩,
              ⟨"login", .component .LoginComponent⟩,
              ⟨"signup", .component .SignupComponent⟩,
              ⟨"movies", .component .MoviesComponent⟩] ∧
    (∀ r1 ∈ routes, ∀ r2 ∈ routes, r1.path = r2.path → r1 = r2) ∧
    (∀ p, findRoute p l = findRoute p routes) := by
  have huniq : ∀ r1 ∈ routes, ∀ r2 ∈ routes, r1.path = r2.path → r1 = r2 := by decide
  refine ⟨rfl, rfl, huniq, ?_⟩
  intro p
  simp only [findRoute]
  cases h1 : routes.find? (fun r => r.path == p) with
  | none =>
    cases h2 : l.find? (fun r => r.path == p) with
    | none => rfl
    | some r =>
      exfalso
      have hr : r ∈ routes := hl.mem_iff.2 (List.mem_of_find?_eq_some h2)
      have hpred := List.find?_some h2
      exact (List.find?_eq_none.1 h1) r hr hpred
  | some r =>
    cases h2 : l.find? (fun r => r.path == p) with
    | none =>
      exfalso
      have hr : r ∈ l := hl.mem_iff.1 (List.mem_of_find?_eq_some h1)
      have hpred := List.find?_some h1
      exact (List.find?_eq_none.1 h2) r hr hpred
    | some r2 =>
      have hr : r ∈ routes := List.mem_of_find?_eq_some h1
      have hr2 : r2 ∈ routes := hl.mem_iff.2 (List.mem_of_find?_eq_some h2)
      have hpred := List.find?_some h1
      have hpred2 := List.find?_some h2
      have : r2 = r := by
        apply huniq r2 hr2 r hr
        have e1 : r2.path = p := by simpa using hpred2
        have e2 : r.path = p := by simpa using hpred
        rw [e1, e2]
      rw [this]

/-- C9 witness: the reversed table is a permutation of `routes` and
lookup agrees with the original on it. -/
theorem c9_route_table_witness :
    routes.length = 4 ∧
    routes = [⟨"", .redirectTo "login" "full"⟩,
              ⟨"login", .component .LoginComponent⟩,
              ⟨"signup", .component .SignupComponent⟩,
              ⟨"movies", .component .MoviesComponent⟩] ∧
    (∀ r1 ∈ routes, ∀ r2 ∈ routes, r1.path = r2.path → r1 = r2) ∧
    (∀ p, findRoute p routes.reverse = findRoute p routes) :=
  c9_route_table routes.reverse (List.reverse_perm routes).symm

/-! ## Append-only behavior of `deletion_logs` -/

/-- A statement preserves-or-extends the deletion log whenever it
succeeds. -/
def StmtLogsExtend (q : Schema → Except SqlErr Schema) : Prop :=
  ∀ s t, q s = .ok t → LogsExtend s t

theorem logsExtend_refl (s : Schema) : LogsExtend s s :=
  fun l hl => ⟨[], by simp [hl]⟩

theorem logsExtend_trans {s t u : Schema} (h1 : LogsExtend s t) (h2 : LogsExtend t u) :
    LogsExtend s u := by
  intro l hl
  obtain ⟨l2, h⟩ := h1 l hl
  obtain ⟨l3, h3⟩ := h2 (l ++ l2) h
  exact ⟨l2 ++ l3, by rw [h3, List.append_assoc]⟩

theorem logsExtend_of_eq {s t : Schema} (h : t.deletion_logs = s.deletion_logs) :
    LogsExtend s t :=
  fun l hl => ⟨[], by rw [h, hl, List.append_nil]⟩

theorem stmtLE_createDatabase : StmtLogsExtend createDatabaseIfNotExists := by
  intro s t h
  refine logsExtend_of_eq ?_
  unfold createDatabaseIfNotExists at h
  split at h <;> (injection h with h; subst h; rfl)

theorem stmtLE_useDatabase : StmtLogsExtend useDatabase := by
  intro s t h
  refine logsExtend_of_eq ?_
  unfold useDatabase at h
  split at h
  · injection h with h; subst h; rfl
  · exact Except.noConfusion h

theorem stmtLE_createUsers : StmtLogsExtend createTableUsers := by
  intro s t h
  refine logsExtend_of_eq ?_
  injection h with h; subst h; rfl

theorem stmtLE_dropUserMovies : StmtLogsExtend dropTableUserMovies := by
  intro s t h
  refine logsExtend_of_eq ?_
  injection h with h; subst h; rfl

theorem stmtLE_dropMovies : StmtLogsExtend dropTableMovies := by
  intro s t h
  refine logsExtend_of_eq ?_
  injection h with h; subst h; rfl

theorem stmtLE_createMovies : StmtLogsExtend createTableMovies := by
  intro s t h
  refine logsExtend_of_eq ?_
  unfold createTableMovies at h
  split at h
  · exact Except.noConfusion h
  · injection h with h; subst h; rfl

theorem stmtLE_createUserMovies : StmtLogsExtend createTableUserMovies := by
  intro s t h
  refine logsExtend_of_eq ?_
  unfold createTableUserMovies at h
  split at h
  · exact Except.noConfusion h
  · injection h with h; subst h; rfl

theorem stmtLE_createUserMoods : StmtLogsExtend createTableUserMoods := by
  intro s t h
  refine logsExtend_of_eq ?_
  injection h with h; subst h; rfl

theorem stmtLE_createDeletionLogs : StmtLogsExtend createTableDeletionLogs := by
  intro s t h l hl
  rcases hdl : s.deletion_logs with _ | logs
  · rw [hdl] at hl; exact Option.noConfusion hl
  · simp [createTableDeletionLogs, hdl] at h
    subst h
    exact ⟨[], by simp [hl]⟩

theorem stmtLE_createTrigger : StmtLogsExtend createTriggerAfterMovieDelete := by
  intro s t h
  refine logsExtend_of_eq ?_
  unfold createTriggerAfterMovieDelete at h
  split at h
  · exact Except.noConfusion h
  · split at h
    · exact Except.noConfusion h
    · injection h with h; subst h; rfl

theorem stmtLE_deleteUserMovies (p : UserMovieRow → Bool) (now : Nat) :
    StmtLogsExtend (deleteUserMoviesWhere p now) := by
  intro s t h l hl
  rcases hum : s.user_movies with _ | rows
  · simp [deleteUserMoviesWhere, hum] at h
  · cases htr : s.after_movie_delete
    · simp [deleteUserMoviesWhere, hum, htr] at h
      subst h
      exact ⟨[], by simp [hl]⟩
    · rcases hdl : s.deletion_logs with _ | logs
      · simp [deleteUserMoviesWhere, hum, htr, hdl] at h
      · simp [deleteUserMoviesWhere, hum, htr, hdl] at h
        rw [hdl] at hl
        obtain rfl : logs = l := Option.some.inj hl
        subst h
        exact ⟨(rows.filter p).enum.map (fun ir =>
          ⟨s.logsAuto + ir.1, ir.2.user_id, ir.2.movie_id, now⟩), by simp⟩

theorem stmtLE_deleteUsers (p : UserRow → Bool) : StmtLogsExtend (deleteUsersWhere p) := by
  intro s t h
  refine logsExtend_of_eq ?_
  rcases hus : s.users with _ | us
  · simp [deleteUsersWhere, hus] at h
  · simp [deleteUsersWhere, hus] at h
    subst h; rfl

theorem stmtLE_deleteMovies (p : MovieRow → Bool) : StmtLogsExtend (deleteMoviesWhere p) := by
  intro s t h
  refine logsExtend_of_eq ?_
  rcases hmv : s.movies with _ | ms
  · simp [deleteMoviesWhere, hmv] at h
  · simp [deleteMoviesWhere, hmv] at h
    subst h; rfl

theorem stmtLE_deleteAllUserMoods : StmtLogsExtend deleteAllUserMoods := by
  intro s t h
  refine logsExtend_of_eq ?_
  rcases hud : s.user_moods with _ | ud
  · simp [deleteAllUserMoods, hud] at h
  · simp [deleteAllUserMoods, hud] at h
    subst h; rfl

theorem stmtLE_insertTestMovies : StmtLogsExtend insertTestMovies := by
  intro s t h
  refine logsExtend_of_eq ?_
  rcases hmv : s.movies with _ | rows
  · simp [insertTestMovies, hmv] at h
  · simp only [insertTestMovies, hmv] at h
    split at h
    · exact Except.noConfusion h
    · injection h with h; subst h; rfl

theorem stmtLE_selectAllMovies : StmtLogsExtend selectAllMovies := by
  intro s t h
  refine logsExtend_of_eq ?_
  rcases hmv : s.movies with _ | rows
  · simp [selectAllMovies, hmv] at h
  · simp [selectAllMovies, hmv] at h
    subst h; rfl

theorem execStmt_logsExtend {q : Schema → Except SqlErr Schema} (hq : StmtLogsExtend q)
    (failAt : Option Nat) (i : Nat) (r : Schema × Option SqlErr) :
    LogsExtend r.1 (execStmt failAt i q r).1 := by
  rcases r with ⟨s, e⟩
  cases e with
  | some e => exact logsExtend_refl s
  | none =>
    by_cases hf : failAt = some i
    · simpa [execStmt, hf] using logsExtend_refl s
    · cases hqr : q s with
      | ok t => simpa [execStmt, hf, hqr] using hq s t hqr
      | error e2 => simpa [execStmt, hf, hqr] using logsExtend_refl s

theorem execStmt_logsExtend_chain {s0 : Schema} {q : Schema → Except SqlErr Schema}
    (hq : StmtLogsExtend q) (failAt : Option Nat) (i : Nat) (r : Schema × Option SqlErr)
    (base : LogsExtend s0 r.1) :
    LogsExtend s0 (execStmt failAt i q r).1 :=
  logsExtend_trans base (execStmt_logsExtend hq failAt i r)

theorem ddlPhase_logsExtend (failAt : Option Nat) (r : Schema × Option SqlErr) :
    LogsExtend r.1 (ddlPhase failAt r).1 := by
  unfold ddlPhase
  apply execStmt_logsExtend_chain stmtLE_createTrigger
  apply execStmt_logsExtend_chain stmtLE_createDeletionLogs
  apply execStmt_logsExtend_chain stmtLE_createUserMoods
  apply execStmt_logsExtend_chain stmtLE_createUserMovies
  apply execStmt_logsExtend_chain stmtLE_createMovies
  apply execStmt_logsExtend_chain stmtLE_dropMovies
  apply execStmt_logsExtend_chain stmtLE_dropUserMovies
  apply execStmt_logsExtend_chain stmtLE_createUsers
  apply execStmt_logsExtend_chain stmtLE_useDatabase
  apply execStmt_logsExtend_chain stmtLE_createDatabase
  exact logsExtend_refl r.1

theorem seedPhase_logsExtend (failAt : Option Nat) (now : Nat) (r : Schema × Option SqlErr) :
    LogsExtend r.1 (seedPhase failAt now r).1 := by
  unfold seedPhase
  apply execStmt_logsExtend_chain stmtLE_insertTestMovies
  apply execStmt_logsExtend_chain (stmtLE_deleteMovies _)
  apply execStmt_logsExtend_chain (stmtLE_deleteUsers _)
  apply execStmt_logsExtend_chain stmtLE_deleteAllUserMoods
  apply execStmt_logsExtend_chain (stmtLE_deleteUserMovies _ _)
  exact logsExtend_refl r.1

theorem runSetup_logsExtend (failAt : Option Nat) (now : Nat) (s : Schema) :
    LogsExtend s (runSetupStatements failAt now s).1 := by
  unfold runSetupStatements
  apply execStmt_logsExtend_chain stmtLE_selectAllMovies
  exact logsExtend_trans (ddlPhase_logsExtend failAt (s, none))
    (seedPhase_logsExtend failAt now _)

theorem setup_logsExtend (connOk : Bool) (failAt : Option Nat) (now : Nat) (s : Schema) :
    LogsExtend s (setupTestDatabase connOk failAt now s).db := by
  cases connOk
  · exact logsExtend_refl s
  · simpa [setupTestDatabase, finallyEnd] using runSetup_logsExtend failAt now s

/-- C10.  The `deletion_logs` table is append-only for every operation
of the script, and its rows can reference users and movies that no
longer exist.  Concretely: running the seed statements on `sDangling`
(one association of user 1 with movie 5, trigger present) leaves a log
row `(user_id 1, movie_id 5)` while no remaining user has id 1 and no
remaining movie has id 5; each clear/seed statement only preserves or
extends the log; and a whole `setupTestDatabase` run — any outcome, any
failure point — only preserves or extends it (rows persist across
provisioning runs). -/
theorem c10_deletion_logs_append_only :
    ((seedPhase none 100 (sDangling, none)).1.deletion_logs = some [⟨1, 1, 5, 100⟩] ∧
     (∀ u ∈ ((seedPhase none 100 (sDangling, none)).1.users.getD []), u.id ≠ 1) ∧
     (∀ m ∈ ((seedPhase none 100 (sDangling, none)).1.movies.getD []), m.id ≠ 5)) ∧
    (∀ p now, StmtLogsExtend (deleteUserMoviesWhere p now)) ∧
    (∀ p, StmtLogsExtend (deleteUsersWhere p)) ∧
    (∀ p, StmtLogsExtend (deleteMoviesWhere p)) ∧
    StmtLogsExtend deleteAllUserMoods ∧
    StmtLogsExtend insertTestMovies ∧
    (∀ connOk failAt now s, LogsExtend s (setupTestDatabase connOk failAt now s).db) :=
  ⟨by decide, stmtLE_deleteUserMovies, stmtLE_deleteUsers, stmtLE_deleteMovies,
   stmtLE_deleteAllUserMoods, stmtLE_insertTestMovies, setup_logsExtend⟩

/-- C10 witness: a full provisioning run on `sAssoc` (whose log table
holds `some []`) keeps the existing rows as a prefix. -/
theorem c10_deletion_logs_append_only_witness :
    ∃ l2, (setupTestDatabase true none 7 sAssoc).db.deletion_logs = some ([] ++ l2) :=
  c10_deletion_logs_append_only.2.2.2.2.2.2 true none 7 sAssoc [] rfl

/-- C2 counterexample.  Against a backend on which every request
succeeds, the requests `testAPI` issues are not the claimed scenario:
the trace contains a `GET /users` step the claim does not mention, and
it ends with the new-password login — the claimed final check that login
with the old password fails is never performed. -/
theorem c2_scenario_counterexample :
    (testAPI allOkOracle 42).trace ≠
      specScenarioRequests 42 7 ⟨1, 278, "The Shawshank Redemption",
        some "Two imprisoned men bond over a number of years.",
        some "/path/to/poster1.jpg", some 93⟩ ∧
    ApiRequest.getUsers ∈ (testAPI allOkOracle 42).trace ∧
    ApiRequest.getUsers ∉ specScenarioRequests 42 7 ⟨1, 278, "The Shawshank Redemption",
        some "Two imprisoned men bond over a number of years.",
        some "/path/to/poster1.jpg", some 93⟩ ∧
    (testAPI allOkOracle 42).trace.getLast? =
      some (.login "testuser_42" "newpassword456") := by
  decide

/-- C2 amended.  When every step succeeds, `testAPI` performs in order:
create user `testuser_<timestamp>` / `password123`, login, list users
(`GET /users`), list movies, add the first returned movie (posting its
`tmdb_id` and details) to the user, fetch the user list, delete the
association using movie id 1, re-fetch and check that id 1 is absent,
update the password to `newpassword456`, and log in with the new
password.  The old-password login occurs exactly once — the initial
login — and is never retried after the password update. -/
theorem c2_scenario_amended (o : ApiOracle) (now userId : Nat) (m : ApiMovie)
    (ms l1 : List ApiMovie)
    (h1 : o.createUser ("testuser_" ++ toString now) "password123" = .ok userId)
    (h2 : o.login ("testuser_" ++ toString now) "password123" = .ok ())
    (h3 : o.getUsers = .ok ())
    (h4 : o.getMovies = .ok (m :: ms))
    (h5 : o.addMovie userId m.tmdb_id m.title (jsOrStr m.overview "")
      (jsOrStr m.poster_path "") (m.vote_average.getD 0) = .ok ())
    (h6 : o.getUserMovies userId = .ok l1)
    (h7 : o.deleteUserMovie userId 1 = .ok ())
    (h8 : o.updatePassword userId "newpassword456" = .ok ())
    (h9 : o.login ("testuser_" ++ toString now) "newpassword456" = .ok ()) :
    testAPI o now =
      { trace := [.createUser ("testuser_" ++ toString now) "password123",
                  .login ("testuser_" ++ toString now) "password123",
                  .getUsers,
                  .getMovies,
                  .addMovie userId m.tmdb_id m.title (jsOrStr m.overview "")
                    (jsOrStr m.poster_path "") (m.vote_average.getD 0),
                  .getUserMovies userId,
                  .deleteUserMovie userId 1,
                  .getUserMovies userId,
                  .updatePassword userId "newpassword456",
                  .login ("testuser_" ++ toString now) "newpassword456"],
        failure := none,
        deleteCheckPassed := some (!(l1.any (fun mv => mv.id == 1))) } := by
  simp [testAPI, stepRun, h1, h2, h3, h4, h5, h6, h7, h8, h9]

/-- C2 amended, witness: the amended scenario on the all-success
backend. -/
theorem c2_scenario_amended_witness :
    testAPI allOkOracle 42 =
      { trace := [.createUser "testuser_42" "password123",
                  .login "testuser_42" "password123",
                  .getUsers,
                  .getMovies,
                  .addMovie 7 278 "The Shawshank Redemption"
                    "Two imprisoned men bond over a number of years."
                    "/path/to/poster1.jpg" 93,
                  .getUserMovies 7,
                  .deleteUserMovie 7 1,
                  .getUserMovies 7,
                  .updatePassword 7 "newpassword456",
                  .login "testuser_42" "newpassword456"],
        failure := none,
        deleteCheckPassed := some true } := by
  have h := c2_scenario_amended allOkOracle 42 7
    ⟨1, 278, "The Shawshank Redemption",
      some "Two imprisoned men bond over a number of years.",
      some "/path/to/poster1.jpg", some 93⟩
    [⟨2, 238, "The Godfather", none, none, some 92⟩,
     ⟨3, 155, "The Dark Knight", none, none, some 90⟩]
    [⟨2, 238, "The Godfather", none, none, none⟩]
    rfl rfl rfl rfl rfl rfl rfl rfl rfl
  simpa using h

/-! ## Abort-on-failure behavior of the scenario -/

/-- Whenever a run failed on a rejected API request, that request is the
last one issued: no later step of the scenario ran and the failed
request was not retried. -/
def AbortsAtFailure (t : TestAPIResult) : Prop :=
  ∀ r e, t.failure = some (.apiStep r e) → t.trace.getLast? = some r

theorem stepRun_aborts {α : Type} (chk : Option Bool) (acc : List ApiRequest)
    (r : ApiRequest) (x : Except ApiError α) (k : List ApiRequest → α → TestAPIResult)
    (hk : ∀ a, AbortsAtFailure (k (acc ++ [r]) a)) :
    AbortsAtFailure (stepRun chk acc r x k) := by
  cases x with
  | error e =>
    intro r2 e2 h
    simp only [stepRun, Option.some.injEq, TestFailure.apiStep.injEq] at h
    obtain ⟨h1, _⟩ := h
    subst h1
    simp [stepRun, List.getLast?_concat]
  | ok a => exact hk a

theorem testAPI_aborts (o : ApiOracle) (now : Nat) : AbortsAtFailure (testAPI o now) := by
  unfold testAPI
  apply stepRun_aborts; intro userId
  apply stepRun_aborts; intro _
  apply stepRun_aborts; intro _
  apply stepRun_aborts; intro movies
  cases movies with
  | nil => intro r e h; simp at h
  | cons m ms =>
    apply stepRun_aborts; intro _
    apply stepRun_aborts; intro _
    apply stepRun_aborts; intro _
    apply stepRun_aborts; intro updated
    apply stepRun_aborts; intro _
    apply stepRun_aborts; intro _
    intro r e h; simp at h

/-- C6.  A failed API request aborts the scenario — the failing request
is the last one issued, nothing is retried — and the single structured
log of the catch block carries the error message (the response body
message when present), the HTTP status, the endpoint URL, the HTTP
method and the request body of that failing request.  And whenever
`setupTestDatabase` reports failure, `runTests` runs no API test at
all. -/
theorem c6_failure_handling (o : ApiOracle) (now : Nat) (r : ApiRequest) (e : ApiError)
    (connOk : Bool) (failAt : Option Nat) (s : Schema)
    (hf : (testAPI o now).failure = some (.apiStep r e))
    (hs : (setupTestDatabase connOk failAt now s).success = false) :
    (testAPI o now).trace.getLast? = some r ∧
    failureLog (.apiStep r e) =
      { message := jsOrStr e.responseDataMessage e.message,
        status := e.responseStatus,
        endpoint := some (requestUrl r),
        method := some (requestMethod r),
        data := requestBody r } ∧
    (runTests connOk failAt now s o).api = none := by
  refine ⟨testAPI_aborts o now r e hf, rfl, ?_⟩
  simp [runTests, hs]

/-- C6 witness: a backend whose `GET /movies` rejects with a 500, and a
setup run whose connection fails. -/
theorem c6_failure_handling_witness :
    (testAPI failingOracle 5).trace.getLast? = some ApiRequest.getMovies ∧
    failureLog (.apiStep .getMovies
        ⟨"Request failed with status code 500", some 500, some "internal error"⟩) =
      { message := jsOrStr (some "internal error") "Request failed with status code 500",
        status := some 500,
        endpoint := some (requestUrl .getMovies),
        method := some (requestMethod .getMovies),
        data := requestBody .getMovies } ∧
    (runTests false none 5 emptySchema failingOracle).api = none :=
  c6_failure_handling failingOracle 5 .getMovies
    ⟨"Request failed with status code 500", some 500, some "internal error"⟩
    false none emptySchema rfl rfl

/-- C3 witness: the DDL phase on the concrete schema `sAssoc`, whose
database already exists, leaves the database list unchanged. -/
theorem c3_provisioning_witness :
    ddlPhase none (sAssoc, none) = (ddlFinalSchema sAssoc, none) ∧
    (ddlFinalSchema sAssoc).databases = sAssoc.databases :=
  ⟨(c3_provisioning sAssoc).1,
   (c3_provisioning sAssoc).2.2.2.2.2.2.2 (by decide)⟩
